import Mathlib

set_option maxRecDepth 20000

/- Shallow embedding of the court and time-slot matching engine of the booking
   repository (src/main.py).  Python strings are modelled as lists of
   characters; Python exceptions are modelled with Except. -/

abbrev Str := List Char

/-- ASCII lower-casing of one character, as Python str.lower acts on the ASCII
inputs this program handles. -/
def pyLowerChar (c : Char) : Char :=
  if 'A' ≤ c ∧ c ≤ 'Z' then Char.ofNat (c.toNat + 32) else c

/-- Python str.lower. -/
def pyLower (s : Str) : Str := s.map pyLowerChar

/-- Python whitespace, for str.strip and str.split with no argument. -/
def isPySpace (c : Char) : Bool :=
  c == ' ' || c == '\t' || c == '\n' || c == '\r'

/-- Python str.strip. -/
def pyStrip (s : Str) : Str :=
  ((s.dropWhile isPySpace).reverse.dropWhile isPySpace).reverse

/-- Auxiliary prefix test for the substring test below. -/
def leadsWith : Str → Str → Bool
  | [], _ => true
  | _ :: _, [] => false
  | a :: as, b :: bs => a == b && leadsWith as bs

/-- Python substring membership: subStr p t holds when p occurs contiguously
in t. -/
def subStr : Str → Str → Bool
  | p, [] => p.isEmpty
  | p, c :: ts => leadsWith p (c :: ts) || subStr p ts

/-- Python str.isdigit on the ASCII inputs this program handles. -/
def isDigitC (c : Char) : Bool :=
  decide ('0' ≤ c) && decide (c ≤ '9')

/-- Python int() on a nonempty all-digit string. -/
def strToNat (s : Str) : Nat := s.foldl (fun a c => 10 * a + (c.toNat - 48)) 0

/-- One decimal digit as a character. -/
def digitChar (n : Nat) : Char := Char.ofNat (48 + n)

/-- Fuel-driven decimal rendering, so that it reduces by kernel computation. -/
def natStrGo : Nat → Nat → Str
  | 0, _ => []
  | fuel + 1, n =>
    if n < 10 then [digitChar n] else natStrGo fuel (n / 10) ++ [digitChar (n % 10)]

/-- Decimal rendering of a natural number, as Python str(n). -/
def natStr (n : Nat) : Str := natStrGo (n + 1) n

/-- Python str.split(sep) for a one-character separator: empty parts kept. -/
def splitOnChar (sep : Char) : Str → List Str
  | [] => [[]]
  | c :: cs =>
    let r := splitOnChar sep cs
    if c == sep then [] :: r
    else
      match r with
      | [] => [[c]]
      | p :: ps => (c :: p) :: ps

/-- Python str.replace of a single space with the empty string. -/
def removeSpaces (s : Str) : Str := s.filter (fun c => !(c == ' '))

/-- Python split on a dash taking element zero: everything before the first
dash, or the whole string if there is none. -/
def beforeDash (s : Str) : Str := s.takeWhile (fun c => !(c == '-'))

/-- Python str.split with no argument: split on whitespace runs, no empties. -/
def pySplitWSGo : Nat → Str → List Str
  | 0, _ => []
  | _ + 1, [] => []
  | fuel + 1, c :: cs =>
    if isPySpace c then pySplitWSGo fuel cs
    else (c :: cs).takeWhile (fun a => !isPySpace a) ::
         pySplitWSGo fuel ((c :: cs).dropWhile (fun a => !isPySpace a))

/-- Join a list of words with single spaces. -/
def joinSpace : List Str → Str
  | [] => []
  | [w] => w
  | w :: ws => w ++ ' ' :: joinSpace ws

/-- Line 410 of src/main.py: a space-join of a whitespace split, collapsing
whitespace runs. -/
def collapseWs (s : Str) : Str := joinSpace (pySplitWSGo s.length s)

/-- The Python exceptions this code can raise: ValueError from int() or tuple
unpacking, and UnboundLocalError from reading a never-assigned local. -/
inductive PyExn where
  | valueError
  | unboundLocalError
deriving DecidableEq

/-- Line 449 of src/main.py: lower-cased, stripped input. -/
def cleanOf (s : Str) : Str := pyLower (pyStrip s)

/-- Line 450: the am indicator. -/
def amIndicator (clean : Str) : Bool :=
  subStr ("am".toList) clean || subStr ("a.m.".toList) clean
    || subStr ("a.m".toList) clean

/-- Line 451: the pm indicator. -/
def pmIndicator (clean : Str) : Bool :=
  subStr ("pm".toList) clean || subStr ("p.m.".toList) clean
    || subStr ("p.m".toList) clean

/-- Line 452: the digits-and-colons token. -/
def numericToken (clean : Str) : Str :=
  clean.filter (fun c => isDigitC c || c == ':')

/-- Lines 462-465 of src/main.py: the 12-hour correction applied to the
extracted hour (an if followed by an elif). -/
def correct (am pm : Bool) (h : Nat) : Nat :=
  if pm && decide (h < 12) then h + 12
  else if am && decide (h = 12) then 0
  else h

/-- The hour extracted from the numeric token (lines 454-459), before the
12-hour correction. -/
def rawHourOf (s : Str) : Nat :=
  let tok := numericToken (cleanOf s)
  if tok.any (fun c => c == ':') then strToNat ((splitOnChar ':' tok).headD [])
  else if tok.isEmpty then 0 else strToNat tok

/-- The function _parse_time of src/main.py, lines 447-467.  int() on an empty
hour part raises ValueError, as does unpacking a split with other than two
parts; an empty token with no colon yields hour zero with no error. -/
def parse_time (s : Str) : Except PyExn (Nat × Nat) :=
  let clean := cleanOf s
  let am := amIndicator clean
  let pm := pmIndicator clean
  let tok := numericToken clean
  if tok.any (fun c => c == ':') then
    match splitOnChar ':' tok with
    | [hs, ms] =>
      if hs.isEmpty then .error .valueError
      else .ok (correct am pm (strToNat hs), if ms.isEmpty then 0 else strToNat ms)
    | _ => .error .valueError
  else
    .ok (correct am pm (if tok.isEmpty then 0 else strToNat tok), 0)

instance {ε α : Type} [DecidableEq ε] [DecidableEq α] : DecidableEq (Except ε α) := fun a b =>
  match a, b with
  | .ok x, .ok y => if h : x = y then .isTrue (by rw [h]) else .isFalse (by simp [h])
  | .error x, .error y => if h : x = y then .isTrue (by rw [h]) else .isFalse (by simp [h])
  | .ok _, .error _ => .isFalse (by simp)
  | .error _, .ok _ => .isFalse (by simp)

/-- Line 794 of src/main.py: lower-cased start argument with spaces removed. -/
def startNorm (s : Str) : Str := removeSpaces (pyLower s)

/-- Lines 798-804: the hour substring of the normalized start argument. -/
def startHourStrOf (s : Str) : Str :=
  if (startNorm s).any (fun c => c == ':') then (splitOnChar ':' (startNorm s)).headD []
  else (startNorm s).filter isDigitC

/-- Lines 800 and 805: the start period is am exactly when the substring am
occurs anywhere in the whole normalized start argument. -/
def startPeriodOf (s : Str) : Str :=
  if subStr ("am".toList) (startNorm s) then "am".toList else "pm".toList

/-- Line 807: int() on the hour substring succeeds, that is, the substring is
nonempty and all digits.  (Sign characters never reach this call site, since
the start argument is always the label this program itself formats.) -/
def intOkOf (s : Str) : Bool :=
  !(startHourStrOf s).isEmpty && (startHourStrOf s).all isDigitC

/-- Lines 807-813: the extracted start hour converted to 24-hour form. -/
def startHour24Of (s : Str) : Nat :=
  let h0 := strToNat (startHourStrOf s)
  if startPeriodOf s == "pm".toList && decide (h0 < 12) then h0 + 12
  else if startPeriodOf s == "am".toList && decide (h0 = 12) then 0
  else h0

/-- Line 816: the end hour, one hour later modulo 24. -/
def endHour24Of (s : Str) : Nat := (startHour24Of s + 1) % 24

/-- Lines 819-823: a 24-hour value shown as a 12-hour display hour. -/
def hour12Disp (h : Nat) : Nat :=
  let a := if h ≤ 12 then h else h - 12
  if a = 0 then 12 else a

/-- Line 825: the end period from the 24-hour end hour. -/
def endPeriodOf (s : Str) : Str :=
  if endHour24Of s < 12 then "am".toList else "pm".toList

/-- Line 829: the first expected pattern, hour colon zero zero period on both
sides of a dash. -/
def pat1Of (s : Str) : Str :=
  natStr (hour12Disp (startHour24Of s)) ++ ":00".toList ++ startPeriodOf s
    ++ "-".toList ++ natStr (hour12Disp (endHour24Of s)) ++ ":00".toList ++ endPeriodOf s

/-- Line 831: the second expected pattern, hour and period with no minutes. -/
def pat2Of (s : Str) : Str :=
  natStr (hour12Disp (startHour24Of s)) ++ startPeriodOf s
    ++ "-".toList ++ natStr (hour12Disp (endHour24Of s)) ++ endPeriodOf s

/-- Line 839: the start-only pattern checked against the part of the candidate
before its first dash. -/
def startOnlyOf (s : Str) : Str :=
  natStr (hour12Disp (startHour24Of s)) ++ ":00".toList ++ startPeriodOf s

/-- Lines 795 and 834: the candidate label lower-cased with spaces removed,
then with spaces removed once more. -/
def normRangeOf (t : Str) : Str := removeSpaces (removeSpaces (pyLower t))

/-- The function is_matching_time_slot of src/main.py, lines 782-839. -/
def is_matching_time_slot (s t : Str) : Except PyExn Bool :=
  if intOkOf s then
    .ok (subStr (pat1Of s) (normRangeOf t) || subStr (pat2Of s) (normRangeOf t)
          || subStr (startOnlyOf s) (beforeDash (normRangeOf t)))
  else .error .valueError

/-- The period rendered by _select_court at lines 361-371. -/
def perStr (p : Bool) : Str := if p then "pm".toList else "am".toList

/-- Lines 361-371 of src/main.py: the displayed hour _select_court builds, with
the hour left unchanged below 12 and folded to 1..12 otherwise. -/
def dispHour (h : Nat) : Nat :=
  if h < 12 then h else if h % 12 ≠ 0 then h % 12 else 12

/-- Line 373: the f-string building the target label from display hours and
periods. -/
def formatCore (a : Nat) (p : Bool) (b : Nat) (q : Bool) : Str :=
  natStr a ++ ":00 ".toList ++ perStr p ++ " - ".toList
    ++ natStr b ++ ":00 ".toList ++ perStr q

/-- Lines 358-373 of _select_court: the target time-slot label built from the
parsed 24-hour start hour. -/
def formatTarget (h : Nat) : Str :=
  formatCore (dispHour h) (decide (12 ≤ h)) (dispHour ((h + 1) % 24))
    (decide (12 ≤ (h + 1) % 24))

/-- The composed window test: _select_court builds the target label from the
desired 24-hour hour (lines 358-373) and passes it to is_matching_time_slot
against the candidate label (line 413).  An exception would be caught by the
enclosing handler, so it counts as no match. -/
def matchesWindow (h : Nat) (label : Str) : Bool :=
  match is_matching_time_slot (formatTarget h) label with
  | .ok b => b
  | .error _ => false

/-- A scraped slot element: its visible text, its data-tooltip attribute and
its class attribute. -/
structure Slot where
  text : Str
  tooltip : Str
  cls : Str
deriving DecidableEq

/-- A scraped result block: title, description and its slot elements. -/
structure Block where
  title : Str
  description : Str
  slots : List Slot
deriving DecidableEq

/-- Lines 391 and 476 of src/main.py: lower-cased title, a space, and the
description. -/
def courtText (b : Block) : Str := pyLower (b.title ++ ' ' :: b.description)

/-- Lines 395-397 of _select_court: the facility keyword is in the block text,
the facility type holds a sport keyword, and the block text holds a sport
keyword. -/
def blockCond (facility : Str) (b : Block) : Bool :=
  subStr facility (courtText b)
    && (subStr ("badminton".toList) facility || subStr ("pickle".toList) facility)
    && (subStr ("badminton".toList) (courtText b) || subStr ("pickle".toList) (courtText b))

/-- The tooltip filter string of the slot query at line 401. -/
def bookNowL : Str := "Book Now".toList

/-- The tooltip value meaning an unavailable slot, line 407. -/
def unavailL : Str := "Unavailable".toList

/-- Lines 399-416 of _select_court: scan the block's slots whose tooltip holds
Book Now; skip unavailable ones; on the first available slot whose collapsed
text matches the target window, stop with that slot. -/
def findSlot (target : Str) : List Slot → Except PyExn (Option Slot)
  | [] => .ok none
  | s :: rest =>
    if subStr bookNowL s.tooltip then
      if s.tooltip = unavailL then findSlot target rest
      else
        match is_matching_time_slot target (collapseWs (pyStrip s.text)) with
        | .error e => .error e
        | .ok m => if m then .ok (some s) else findSlot target rest
    else findSlot target rest

/-- Lines 384-420 of _select_court: the loop over all result blocks.  The
accumulator is the current value of the local best_slot, which a later
matching block overwrites because only the inner loop breaks. -/
def selectGo (target facility : Str) :
    List Block → Option (Block × Slot) → Except PyExn (Option (Block × Slot))
  | [], acc => .ok acc
  | b :: rest, acc =>
    if blockCond facility b then
      match findSlot target b.slots with
      | .error e => .error e
      | .ok (some s) => selectGo target facility rest (some (b, s))
      | .ok none => selectGo target facility rest acc
    else selectGo target facility rest acc

/-- The body of _select_court (lines 347-440) inside its try clause: parse the
desired time, build the target label, scan the blocks, then read best_slot at
line 422, which raises UnboundLocalError when no match ever assigned it. -/
def selectBody (blocks : List Block) (facility time : Str) :
    Except PyExn (Block × Slot) :=
  match parse_time time with
  | .error e => .error e
  | .ok hm =>
    match selectGo (formatTarget hm.1) facility blocks none with
    | .error e => .error e
    | .ok (some bs) => .ok bs
    | .ok none => .error .unboundLocalError

/-- The function _select_court of src/main.py: the except clause at line 442
catches every exception and returns False, modelled as none.  The configured
court number is read at line 352 but used only inside a log message, so it is
a parameter the result does not depend on. -/
def select_court (blocks : List Block) (facility courtNumber time : Str) :
    Option (Block × Slot) :=
  match selectBody blocks facility time with
  | .ok bs => some bs
  | .error _ => none

/-- Lines 477-486 of src/main.py: the score of one block in
_find_matching_courts, accumulated exactly as the source nests its branches. -/
def computeScore (b : Block) (facility courtNumber : Str) : Nat :=
  let text := courtText b
  if subStr facility text then
    let s1 := 100
    let s2 := if !courtNumber.isEmpty && subStr (facility ++ ' ' :: courtNumber) text
              then s1 + 50 else s1
    let s3 := if subStr ("badminton".toList) facility && subStr ("badminton".toList) text
              then s2 + 30 else s2
    if subStr ("pickle".toList) facility && subStr ("pickle".toList) text
    then s3 + 30 else s3
  else 0

/-- One entry of the court_matches dict of _find_matching_courts. -/
structure CourtMatch where
  div : Block
  score : Nat
  slots : List (Slot × Str)
deriving DecidableEq

/-- Python dict insertion keyed by title (line 504): replace the value at an
existing key, else append at the end. -/
def dictInsert (k : Str) (v : CourtMatch) :
    List (Str × CourtMatch) → List (Str × CourtMatch)
  | [] => [(k, v)]
  | (k2, v2) :: rest => if k2 = k then (k, v) :: rest else (k2, v2) :: dictInsert k v rest

/-- Lines 489-500 of src/main.py: the cart-button slots whose class holds
success and whose stripped text contains some requested time format. -/
def availableSlots (formats : List Str) (slots : List Slot) : List (Slot × Str) :=
  (slots.filter (fun s =>
      subStr ("button".toList) s.cls && subStr ("cart-button".toList) s.cls)).filterMap
    (fun s =>
      if subStr ("success".toList) s.cls
          && formats.any (fun f => subStr (pyLower f) (pyLower (pyStrip s.text))) then
        some (s, pyStrip s.text)
      else none)

/-- The loop of _find_matching_courts, lines 472-514. -/
def find_matching_courts_go (facility courtNumber : Str) (formats : List Str) :
    List Block → List (Str × CourtMatch) → List (Str × CourtMatch)
  | [], acc => acc
  | b :: rest, acc =>
    let score := computeScore b facility courtNumber
    if score > 0 then
      let avail := availableSlots formats b.slots
      if !avail.isEmpty then
        find_matching_courts_go facility courtNumber formats rest
          (dictInsert b.title ⟨b, score + 50, avail⟩ acc)
      else find_matching_courts_go facility courtNumber formats rest acc
    else find_matching_courts_go facility courtNumber formats rest acc

/-- The function _find_matching_courts of src/main.py, lines 469-516. -/
def find_matching_courts (blocks : List Block) (facility courtNumber : Str)
    (formats : List Str) : List (Str × CourtMatch) :=
  find_matching_courts_go facility courtNumber formats blocks []

/-- Spec-side definition, following the wording of section 4.1 of the spec:
the 12-hour display convention, hour 0 shown as 12 am, hour 12 as 12 pm,
hours 13 to 23 as hour minus 12 with pm, hours 1 to 11 with am. -/
def specDisplay (h : Nat) : Nat × Str :=
  if h = 0 then (12, "am".toList)
  else if h < 12 then (h, "am".toList)
  else if h = 12 then (12, "pm".toList)
  else (h - 12, "pm".toList)

/-- Spec-side: the first canonical full-range label of the claim, start hour,
colon zero zero, start period, dash, end hour, colon zero zero, end period. -/
def specPat1 (h : Nat) : Str :=
  natStr (specDisplay h).1 ++ ":00".toList ++ (specDisplay h).2
    ++ "-".toList ++ natStr (specDisplay ((h + 1) % 24)).1 ++ ":00".toList
    ++ (specDisplay ((h + 1) % 24)).2

/-- Spec-side: the second canonical full-range label, with no minutes. -/
def specPat2 (h : Nat) : Str :=
  natStr (specDisplay h).1 ++ (specDisplay h).2
    ++ "-".toList ++ natStr (specDisplay ((h + 1) % 24)).1
    ++ (specDisplay ((h + 1) % 24)).2

/-- Spec-side: the canonical start-only label. -/
def specStartOnly (h : Nat) : Str :=
  natStr (specDisplay h).1 ++ ":00".toList ++ (specDisplay h).2

/-- Spec-side definition following the claim wording of matchesWindow: the
lower-cased space-stripped candidate contains one of the two canonical
full-range labels, or the canonical start-only label occurs in the portion of
the normalized candidate before the first dash. -/
def specMatchesWindow (h : Nat) (label : Str) : Bool :=
  subStr (specPat1 h) (removeSpaces (pyLower label))
    || subStr (specPat2 h) (removeSpaces (pyLower label))
    || subStr (specStartOnly h) (beforeDash (removeSpaces (pyLower label)))

/-- Spec-side definition following the claim wording of the score: 0 when the
facility type is not a substring of the normalized text, otherwise 100 plus
the three independent bonuses. -/
def specScore (b : Block) (facility courtNumber : Str) : Nat :=
  let text := courtText b
  if subStr facility text then
    100 + (if !courtNumber.isEmpty && subStr (facility ++ ' ' :: courtNumber) text
           then 50 else 0)
        + (if subStr ("badminton".toList) facility && subStr ("badminton".toList) text
           then 30 else 0)
        + (if subStr ("pickle".toList) facility && subStr ("pickle".toList) text
           then 30 else 0)
  else 0

/-- Spec-side: one selectable candidate of the claimed selectBest, with score
bonus 50 for having an available matching slot; availability is the tooltip
not reading Unavailable, as in the selection path of the source. -/
def specSelectable (h : Nat) (facility courtNumber : Str) (b : Block) :
    Option (Block × Nat × List Slot) :=
  let sc := specScore b facility courtNumber
  let ms := b.slots.filter (fun s =>
    !(s.tooltip = "Unavailable".toList) && specMatchesWindow h s.text)
  if sc > 0 && !ms.isEmpty then some (b, sc + 50, ms) else none

/-- Spec-side definition following the claim wording of selectBest: maximum
score wins, ties resolved by earliest position, and the winner's first
matching slot is returned. -/
def specSelectBest (blocks : List Block) (facility courtNumber time : Str) :
    Option (Block × Slot) :=
  match parse_time time with
  | .error _ => none
  | .ok hm =>
    match blocks.filterMap (specSelectable hm.1 facility courtNumber) with
    | [] => none
    | c :: cs =>
      let best := cs.foldl (fun acc d => if d.2.1 > acc.2.1 then d else acc) c
      match best.2.2 with
      | [] => none
      | s :: _ => some (best.1, s)

/-- Spec-side, following the claim wording of the 12-hour correction as two
independent rules, each reading the extracted hour. -/
def specCorrect12 (am pm : Bool) (h : Nat) : Nat :=
  let h1 := if pm && decide (h < 12) then h + 12 else h
  if am && decide (h = 12) then 0 else h1

/-- The display pair the code computes for a desired hour: the 12-hour start
hour and the start period used to build the expected patterns. -/
def codeStartDisp (h : Nat) : Nat × Str :=
  (hour12Disp (startHour24Of (formatTarget h)), startPeriodOf (formatTarget h))

/-- The display map of the amended claim: as the spec convention for hours 0
to 22, but hour 23 is shown with period am, because the period is read off the
whole composed target label and the midnight end time contributes am. -/
def amendedDisplay (h : Nat) : Nat × Str :=
  if h = 23 then (11, "am".toList) else specDisplay h

/-- The value of is_matching_time_slot when it does not raise, and false on an
exception, as the enclosing handler of _select_court would produce. -/
def matchesBool (target t : Str) : Bool :=
  match is_matching_time_slot target t with
  | .ok b => b
  | .error _ => false

/-- Total description of findSlot when int() cannot fail: the first Book-Now,
available slot whose collapsed text matches the target. -/
def firstSlotT (target : Str) (slots : List Slot) : Option Slot :=
  slots.find? (fun s =>
    subStr bookNowL s.tooltip && !(s.tooltip = unavailL)
      && matchesBool target (collapseWs (pyStrip s.text)))

/-- The per-block extraction of the selection loop: the block with its first
matching slot if it passes the facility and keyword condition and has one. -/
def blockPick (target facility : Str) (b : Block) : Option (Block × Slot) :=
  if blockCond facility b then (firstSlotT target b.slots).map (fun s => (b, s))
  else none

/-- The amended selection behavior: of the blocks passing the facility and
keyword condition and having a matching available slot, the last one in input
order, with its first matching slot. -/
def lastMatchSel (target facility : Str) (blocks : List Block) :
    Option (Block × Slot) :=
  (blocks.filterMap (blockPick target facility)).getLast?

/-- An Except value is an error. -/
def isErr {α : Type} (e : Except PyExn α) : Bool :=
  match e with
  | .error _ => true
  | .ok _ => false

/-- Concrete fixture: a first badminton block with a matching slot. -/
def exSlot1 : Slot := ⟨"6:00 pm - 7:00 pm".toList, "Book Now".toList, "button cart-button success".toList⟩

/-- Concrete fixture: a second badminton block with a matching slot. -/
def exSlot2 : Slot := ⟨"6pm-7pm".toList, "Book Now".toList, "button cart-button success".toList⟩

/-- Concrete fixture blocks. -/
def exB1 : Block := ⟨"Badminton Court 1".toList, "".toList, [exSlot1]⟩

/-- Concrete fixture blocks. -/
def exB2 : Block := ⟨"Badminton Court 2".toList, "".toList, [exSlot2]⟩

/-- Concrete fixture: a block with no facility keyword at all. -/
def exB3 : Block := ⟨"Tennis Court".toList, "".toList, [exSlot1]⟩

/-- A concrete fixture block for the scoring claim. -/
def exScoreBlock : Block := ⟨"Badminton 2".toList, "Court".toList, []⟩

/-- The last element of a list as an option, with a fallback. -/
def lastOr {α : Type} (l : List α) (acc : Option α) : Option α :=
  match l.getLast? with
  | some x => some x
  | none => acc

/-- The invariant claimed for entries of the match set: positive score, the
facility keyword inside the block text, and a nonempty list of stored slots,
each of which is available and matches a requested time format. -/
def entryInv (facility : Str) (formats : List Str) (p : Str × CourtMatch) : Prop :=
  p.2.score > 0 ∧ subStr facility (courtText p.2.div) = true ∧ p.2.slots ≠ [] ∧
    ∀ q ∈ p.2.slots, subStr ("success".toList) q.1.cls = true ∧
      formats.any (fun f => subStr (pyLower f) (pyLower (pyStrip q.1.text))) = true

/-- Two-digit zero-padded minutes for the claimed renderings. -/
def pad2 (n : Nat) : Str := if n < 10 then '0' :: natStr n else natStr n

def renderTime (h : Nat) (withColon : Bool) (mm : Nat) (sp : Bool) (ind : Option Bool) : Str :=
  natStr h ++ (if withColon then ':' :: pad2 mm else [])
    ++ (if sp then " ".toList else [])
    ++ (match ind with
        | none => []
        | some true => "pm".toList
        | some false => "am".toList)

def canon12 (h m : Nat) : Str :=
  if h = 0 then natStr 12 ++ ':' :: pad2 m ++ "am".toList
  else if h < 12 then natStr h ++ ':' :: pad2 m ++ "am".toList
  else if h = 12 then natStr 12 ++ ':' :: pad2 m ++ "pm".toList
  else natStr (h - 12) ++ ':' :: pad2 m ++ "pm".toList

def expectedHour (h : Nat) : Option Bool → Nat
  | none => h
  | some true => if h = 12 then 12 else h + 12
  | some false => if h = 12 then 0 else h

def c9Pre (h : Nat) (ind : Option Bool) : Bool :=
  match ind with
  | some _ => decide (1 ≤ h) && decide (h ≤ 12)
  | none => decide (h ≤ 23)

def c9Body (h2 m2 : Nat) (wc2 sp2 : Bool) (ind2 : Option Bool) : Bool :=
  decide (parse_time (renderTime h2 wc2 m2 sp2 ind2) = .ok (expectedHour h2 ind2, m2))
    && decide (expectedHour h2 ind2 ≤ 23)
    && decide (parse_time (canon12 (expectedHour h2 ind2) m2) = .ok (expectedHour h2 ind2, m2))

/-- The exhaustive check of the round-trip property for one desired hour. -/
def c9CheckHour (h2 : Nat) : Bool :=
  (List.range 60).all (fun m2 =>
    [true, false].all (fun wc2 =>
      [true, false].all (fun sp2 =>
        [none, some true, some false].all (fun ind2 =>
          !(c9Pre h2 ind2 && (wc2 || decide (m2 = 0)))
            || c9Body h2 m2 wc2 sp2 ind2))))

theorem removeSpaces_idem (s : Str) : removeSpaces (removeSpaces s) = removeSpaces s := by
  induction s with
  | nil => rfl
  | cons c cs ih =>
    by_cases h : c = ' ' <;> simp [removeSpaces, h] at ih ⊢

theorem correct_eq_spec (am pm : Bool) (h : Nat) :
    correct am pm h = specCorrect12 am pm h := by
  unfold correct specCorrect12
  cases am <;> cases pm <;> simp <;> split_ifs <;> omega

/-- C10: the decision of the court-selection loop actually used for booking is
independent of the configured court number: two runs differing only in the
court number return the same block and slot, since the court number is read
but appears only in a log message. -/
theorem c10_court_number_independent (blocks : List Block)
    (facility cn cn2 time : Str) :
    select_court blocks facility cn time = select_court blocks facility cn2 time := rfl

/-- C3 counterexample: on the input noon the hour substring of the token is
empty, so the claim asserts a parse failure, but the code returns the pair
(0, 0) with no error at all. -/
theorem c3_counterexample : parse_time ("noon".toList) = .ok (0, 0) := by decide

/-- C3 amended: the parse fails, with an untyped ValueError rather than any
MalformedTimeError, exactly when the digits-and-colons token contains a colon
and either does not split into exactly two parts or has an empty part before
the first colon; an empty token with no colon parses as hour zero. -/
theorem c3_amended (s : Str) :
    isErr (parse_time s) = true ↔
      ((numericToken (cleanOf s)).any (fun c => c == ':') = true ∧
        ((splitOnChar ':' (numericToken (cleanOf s))).length ≠ 2 ∨
          (splitOnChar ':' (numericToken (cleanOf s))).headD [] = [])) := by
  unfold parse_time
  dsimp only
  cases hany : (numericToken (cleanOf s)).any (fun c => c == ':') with
  | false => simp [isErr, hany]
  | true =>
    rcases hsp : splitOnChar ':' (numericToken (cleanOf s)) with _ | ⟨hs, tl⟩
    · simp [isErr, hany, hsp]
    · rcases tl with _ | ⟨ms, tl2⟩
      · simp [isErr, hany, hsp]
      · rcases tl2 with _ | ⟨x, tl3⟩
        · by_cases hh : hs.isEmpty
          · have hhs : hs = [] := by simpa [List.isEmpty_iff] using hh
            subst hhs
            simp [isErr, hany, hsp]
          · have hhs : hs ≠ [] := by simpa [List.isEmpty_iff] using hh
            simp [isErr, hany, hsp, hh, hhs]
        · simp [isErr, hany, hsp]

/-- C5: the score of a block is 0 when the facility type is not a substring of
the lower-cased title-space-description text, and otherwise 100 plus 50 for a
court-number phrase match plus 30 for each matching sport keyword; and a
concrete block whose text contains the phrase badminton 2 scores 180 for
facility badminton and court number 2. -/
theorem c5_score :
    (∀ (b : Block) (facility courtNumber : Str),
        computeScore b facility courtNumber = specScore b facility courtNumber) ∧
      subStr ("badminton 2".toList) (courtText exScoreBlock) = true ∧
      computeScore exScoreBlock ("badminton".toList) ("2".toList) = 180 := by
  refine ⟨fun b facility courtNumber => ?_, by decide, by decide⟩
  unfold computeScore specScore
  dsimp only
  split_ifs <;> omega

/-- C6: the 12-hour correction of the parser acts as the two independent rules
of the claim, pm with hour below 12 adds 12 and am with hour 12 yields 0, no
correction applying without an indicator; every successful parse returns the
hour given by these rules applied to the extracted raw hour. -/
theorem c6_correction :
    (∀ (am pm : Bool) (h : Nat), correct am pm h = specCorrect12 am pm h) ∧
      (∀ h : Nat, correct false false h = h) ∧
      (∀ (s : Str) (h mi : Nat), parse_time s = .ok (h, mi) →
        h = specCorrect12 (amIndicator (cleanOf s)) (pmIndicator (cleanOf s))
              (rawHourOf s)) := by
  refine ⟨correct_eq_spec, fun h => by simp [correct], fun s h mi hp => ?_⟩
  rw [← correct_eq_spec]
  unfold parse_time at hp
  dsimp only at hp
  unfold rawHourOf
  dsimp only
  cases hany : (numericToken (cleanOf s)).any (fun c => c == ':') with
  | false =>
    simp [hany] at hp ⊢
    exact hp.1.symm
  | true =>
    rcases hsp : splitOnChar ':' (numericToken (cleanOf s)) with _ | ⟨hs, tl⟩
    · simp [hany, hsp] at hp
    · rcases tl with _ | ⟨ms, tl2⟩
      · simp [hany, hsp] at hp
      · rcases tl2 with _ | ⟨x, tl3⟩
        · by_cases hh : hs.isEmpty
          · simp [hany, hsp, hh] at hp
          · simp [hany, hsp, hh] at hp ⊢
            exact hp.1.symm
        · simp [hany, hsp] at hp

/-- C6 witness at the concrete input 6pm. -/
theorem c6_correction_witness :
    (18 : Nat) = specCorrect12 (amIndicator (cleanOf ("6pm".toList)))
      (pmIndicator (cleanOf ("6pm".toList))) (rawHourOf ("6pm".toList)) :=
  c6_correction.2.2 ("6pm".toList) 18 0 (by decide)

theorem normRangeOf_eq (t : Str) : normRangeOf t = removeSpaces (pyLower t) :=
  removeSpaces_idem (pyLower t)

theorem intOk_formatCore :
    ∀ a, a ≤ 12 → ∀ b, b ≤ 12 → ∀ p q : Bool, intOkOf (formatCore a p b q) = true := by
  decide

theorem dispHour_le (h : Nat) : dispHour h ≤ 12 := by
  unfold dispHour
  split_ifs <;> omega

theorem intOk_formatTarget (h : Nat) : intOkOf (formatTarget h) = true :=
  intOk_formatCore _ (dispHour_le h) _ (dispHour_le _) _ _

theorem matchesWindow_eq (h : Nat) (t : Str) :
    matchesWindow h t =
      (subStr (pat1Of (formatTarget h)) (normRangeOf t)
        || subStr (pat2Of (formatTarget h)) (normRangeOf t)
        || subStr (startOnlyOf (formatTarget h)) (beforeDash (normRangeOf t))) := by
  unfold matchesWindow is_matching_time_slot
  rw [intOk_formatTarget]
  simp

/-- C4 counterexample: at desired hour 23 the candidate label 11 pm to 12 am
contains the canonical full-range label of the claim, yet the code returns
false, because the start period is read off the whole composed target label
and the midnight end time makes it am. -/
theorem c4_counterexample :
    matchesWindow 23 ("11:00 pm - 12:00 am".toList) = false ∧
      specMatchesWindow 23 ("11:00 pm - 12:00 am".toList) = true := by
  decide

/-- C4 amended: for desired hours 0 through 22 the window test returns true
exactly as the claim states, namely when the normalized candidate contains one
of the two canonical full-range labels or the start-only label occurs before
the first dash; hour 23 is excluded by the counterexample. -/
theorem c4_amended (h : Nat) (hh : h ≤ 22) (label : Str) :
    matchesWindow h label = specMatchesWindow h label := by
  have e1 : ∀ h2, h2 < 23 →
      (pat1Of (formatTarget h2) = specPat1 h2 ∧ pat2Of (formatTarget h2) = specPat2 h2 ∧
        startOnlyOf (formatTarget h2) = specStartOnly h2) := by decide
  obtain ⟨p1, p2, p3⟩ := e1 h (by omega)
  rw [matchesWindow_eq, normRangeOf_eq, p1, p2, p3]
  rfl

/-- C4 witness at the concrete hour 18 and a concrete label. -/
theorem c4_amended_witness :
    matchesWindow 18 ("6:00 pm - 7:00 pm".toList) =
      specMatchesWindow 18 ("6:00 pm - 7:00 pm".toList) :=
  c4_amended 18 (by decide) ("6:00 pm - 7:00 pm".toList)

/-- C7 counterexample: the claim says hours 13 to 23 display as hour minus 12
with period pm, but at hour 23 the code computes display hour 11 with period
am, and consequently the label 11 pm to 12 am does not match. -/
theorem c7_counterexample :
    codeStartDisp 23 = (11, "am".toList) ∧
      codeStartDisp 23 ≠ (23 - 12, "pm".toList) ∧
      matchesWindow 23 ("11:00 pm - 12:00 am".toList) = false := by
  decide

/-- C7 amended: the midnight boundary works as claimed at hours 0 and 12, with
hour 0 displayed as 12 am and hour 12 as 12 pm, and hours 13 to 22 displayed
as hour minus 12 with pm; hour 23 alone is displayed with period am; and the
window test at hour 0 accepts the label 12 am to 1 am. -/
theorem c7_amended (h : Nat) (hh : h < 24) :
    codeStartDisp h = amendedDisplay h ∧
      matchesWindow 0 ("12:00 am - 1:00 am".toList) = true := by
  constructor
  · have e : ∀ h2, h2 < 24 → codeStartDisp h2 = amendedDisplay h2 := by decide
    exact e h hh
  · decide

/-- C7 witness at the concrete hours 0 and 23. -/
theorem c7_amended_witness :
    (codeStartDisp 23 = amendedDisplay 23 ∧
      matchesWindow 0 ("12:00 am - 1:00 am".toList) = true) :=
  c7_amended 23 (by decide)

theorem is_matching_ok (s t : Str) (hok : intOkOf s = true) :
    is_matching_time_slot s t = .ok (matchesBool s t) := by
  unfold matchesBool is_matching_time_slot
  simp [hok]

theorem findSlot_ok (target : Str) (hok : intOkOf target = true) :
    ∀ slots, findSlot target slots = .ok (firstSlotT target slots) := by
  intro slots
  induction slots with
  | nil => rfl
  | cons s rest ih =>
    unfold findSlot firstSlotT
    rw [is_matching_ok _ _ hok, List.find?_cons]
    by_cases h1 : subStr bookNowL s.tooltip
    · by_cases h2 : s.tooltip = unavailL
      · simp [h1, h2]
        exact ih
      · by_cases h3 : matchesBool target (collapseWs (pyStrip s.text))
        · simp [h1, h2, h3]
        · simp [h1, h2, h3]
          exact ih
    · simp [h1]
      exact ih

theorem lastOr_cons {α : Type} (x : α) (l : List α) (acc : Option α) :
    lastOr (x :: l) acc = lastOr l (some x) := by
  cases l with
  | nil => rfl
  | cons z zs =>
    unfold lastOr
    rw [List.getLast?_cons_cons]
    cases hgl : (z :: zs).getLast? with
    | some y => rfl
    | none => exact absurd (List.getLast?_eq_none_iff.mp hgl) (by simp)

theorem selectGo_eq (target facility : Str) (hok : intOkOf target = true) :
    ∀ (blocks : List Block) (acc : Option (Block × Slot)),
      selectGo target facility blocks acc =
        .ok (lastOr (blocks.filterMap (blockPick target facility)) acc) := by
  intro blocks
  induction blocks with
  | nil => intro acc; rfl
  | cons b rest ih =>
    intro acc
    unfold selectGo
    by_cases hb : blockCond facility b
    · rw [findSlot_ok target hok]
      cases hfs : firstSlotT target b.slots with
      | none =>
        simp only [hb, if_true, ite_true]
        rw [ih acc]
        have : blockPick target facility b = none := by simp [blockPick, hb, hfs]
        simp [List.filterMap_cons, this]
      | some s =>
        simp only [hb, if_true, ite_true]
        rw [ih (some (b, s))]
        have : blockPick target facility b = some (b, s) := by simp [blockPick, hb, hfs]
        simp [List.filterMap_cons, this, lastOr_cons]
    · have : blockPick target facility b = none := by simp [blockPick, hb]
      simp [hb, ih acc, List.filterMap_cons, this]

theorem select_court_eq (blocks : List Block) (facility cn time : Str)
    (h mi : Nat) (hp : parse_time time = .ok (h, mi)) :
    select_court blocks facility cn time =
      lastMatchSel (formatTarget h) facility blocks := by
  unfold select_court selectBody
  rw [hp]
  dsimp only
  rw [selectGo_eq (formatTarget h) facility (intOk_formatTarget h) blocks none]
  unfold lastMatchSel lastOr
  rcases hgl : (blocks.filterMap (blockPick (formatTarget h) facility)).getLast? with _ | x <;>
    rfl

/-- C1 counterexample: two badminton blocks in order, both with an available
slot matching the 6 pm window and equal scores; the claimed selection returns
the first block, but the code returns the second, because the loop keeps
overwriting its best slot and only the inner loop breaks. -/
theorem c1_counterexample :
    select_court [exB1, exB2] ("badminton".toList) [] ("6pm".toList) = some (exB2, exSlot2) ∧
      specSelectBest [exB1, exB2] ("badminton".toList) [] ("6pm".toList) = some (exB1, exSlot1) ∧
      ((exB2 : Block), exSlot2) ≠ ((exB1 : Block), exSlot1) := by
  decide

/-- C1 amended: whenever the desired time parses, the selection loop returns
the last block in input order that passes the facility and sport-keyword
condition and has at least one available matching slot, together with that
block's first matching slot in slot order; no score is ever computed or
compared on this path. -/
theorem c1_amended (blocks : List Block) (facility cn time : Str) (h mi : Nat)
    (hp : parse_time time = .ok (h, mi)) :
    select_court blocks facility cn time = lastMatchSel (formatTarget h) facility blocks :=
  select_court_eq blocks facility cn time h mi hp

/-- C1 witness at the concrete two-block input and time 6 pm. -/
theorem c1_amended_witness :
    select_court [exB1, exB2] ("badminton".toList) [] ("6pm".toList) =
      lastMatchSel (formatTarget 18) ("badminton".toList) [exB1, exB2] :=
  c1_amended [exB1, exB2] ("badminton".toList) [] ("6pm".toList) 18 0 (by decide)

/-- C2 counterexample: with a single block that does not contain the facility
keyword, the body of the selection raises UnboundLocalError from the
never-assigned best_slot local, and the enclosing handler swallows it and
returns the plain failure value False, modelled as none; no typed
NoAvailableCourtError exists anywhere in the code. -/
theorem c2_counterexample :
    selectBody [exB3] ("badminton".toList) ("6pm".toList) = .error .unboundLocalError ∧
      select_court [exB3] ("badminton".toList) [] ("6pm".toList) = none := by
  decide

/-- C2 amended: whenever the desired time parses and no block both passes the
facility and sport-keyword condition and has an available matching slot, the
selection body ends in UnboundLocalError and the function returns the failure
value, never a default selection; in particular this holds when no block text
contains the facility keyword, since that falsifies the condition. -/
theorem c2_amended (blocks : List Block) (facility cn time : Str) (h mi : Nat)
    (hp : parse_time time = .ok (h, mi))
    (hnone : ∀ b ∈ blocks, blockCond facility b = false ∨
      firstSlotT (formatTarget h) b.slots = none) :
    selectBody blocks facility time = .error .unboundLocalError ∧
      select_court blocks facility cn time = none := by
  have hfm : blocks.filterMap (blockPick (formatTarget h) facility) = [] := by
    rw [List.filterMap_eq_nil_iff]
    intro b hb
    rcases hnone b hb with h1 | h2
    · simp [blockPick, h1]
    · simp [blockPick, h2]
  have hbody : selectBody blocks facility time = .error .unboundLocalError := by
    unfold selectBody
    rw [hp]
    dsimp only
    rw [selectGo_eq (formatTarget h) facility (intOk_formatTarget h) blocks none]
    rw [hfm]
    rfl
  exact ⟨hbody, by unfold select_court; rw [hbody]⟩

/-- C2 witness at the concrete empty block list and time 6 pm. -/
theorem c2_amended_witness :
    selectBody [] ("badminton".toList) ("6pm".toList) = .error .unboundLocalError ∧
      select_court [] ("badminton".toList) [] ("6pm".toList) = none :=
  c2_amended [] ("badminton".toList) [] ("6pm".toList) 18 0 (by decide) (by decide)

theorem computeScore_pos (b : Block) (facility cn : Str)
    (h : computeScore b facility cn > 0) : subStr facility (courtText b) = true := by
  by_cases hs : subStr facility (courtText b)
  · exact hs
  · unfold computeScore at h
    dsimp only at h
    simp [hs] at h

theorem mem_availableSlots (formats : List Str) (slots : List Slot) (q : Slot × Str)
    (hq : q ∈ availableSlots formats slots) :
    subStr ("success".toList) q.1.cls = true ∧
      formats.any (fun f => subStr (pyLower f) (pyLower (pyStrip q.1.text))) = true := by
  unfold availableSlots at hq
  rw [List.mem_filterMap] at hq
  obtain ⟨a, ha, hfa⟩ := hq
  by_cases hc : (subStr ("success".toList) a.cls
      && formats.any (fun f => subStr (pyLower f) (pyLower (pyStrip a.text)))) = true
  · rw [if_pos hc] at hfa
    obtain rfl := Option.some.inj hfa
    simpa using hc
  · rw [if_neg hc] at hfa
    exact absurd hfa (by simp)

theorem mem_dictInsert (k : Str) (v : CourtMatch) :
    ∀ (l : List (Str × CourtMatch)) (p : Str × CourtMatch),
      p ∈ dictInsert k v l → p = (k, v) ∨ p ∈ l := by
  intro l
  induction l with
  | nil =>
    intro p hp
    unfold dictInsert at hp
    simp at hp
    exact Or.inl hp
  | cons kv rest ih =>
    intro p hp
    obtain ⟨k2, v2⟩ := kv
    unfold dictInsert at hp
    by_cases hk : k2 = k
    · rw [if_pos hk] at hp
      rcases List.mem_cons.mp hp with h | h
      · exact Or.inl h
      · exact Or.inr (List.mem_cons.mpr (Or.inr h))
    · rw [if_neg hk] at hp
      rcases List.mem_cons.mp hp with h | h
      · exact Or.inr (List.mem_cons.mpr (Or.inl h))
      · rcases ih p h with h2 | h2
        · exact Or.inl h2
        · exact Or.inr (List.mem_cons.mpr (Or.inr h2))

theorem fmc_go_inv (facility cn : Str) (formats : List Str) :
    ∀ (blocks : List Block) (acc : List (Str × CourtMatch)),
      (∀ p ∈ acc, entryInv facility formats p) →
      ∀ p ∈ find_matching_courts_go facility cn formats blocks acc,
        entryInv facility formats p := by
  intro blocks
  induction blocks with
  | nil =>
    intro acc hacc p hp
    unfold find_matching_courts_go at hp
    exact hacc p hp
  | cons b rest ih =>
    intro acc hacc p hp
    unfold find_matching_courts_go at hp
    dsimp only at hp
    by_cases hsc : computeScore b facility cn > 0
    · rw [if_pos hsc] at hp
      by_cases hav : (availableSlots formats b.slots).isEmpty
      · simp only [hav, Bool.not_true, if_false, ite_false, Bool.false_eq_true] at hp
        exact ih acc hacc p hp
      · rw [Bool.not_eq_true] at hav
        simp only [hav, Bool.not_false, if_true, ite_true] at hp
        refine ih _ ?_ p hp
        intro q hq
        rcases mem_dictInsert _ _ _ q hq with rfl | hq2
        · refine ⟨?_, computeScore_pos b facility cn hsc, ?_, ?_⟩
          · show computeScore b facility cn + 50 > 0
            omega
          · show availableSlots formats b.slots ≠ []
            intro hnil
            rw [hnil] at hav
            simp at hav
          · intro r hr
            exact mem_availableSlots formats b.slots r hr
        · exact hacc q hq2
    · rw [if_neg hsc] at hp
      exact ih acc hacc p hp

/-- C8: every entry of the match set built by the scoring pipeline has a
positive score, has the facility type as a substring of the normalized
title-plus-description text of its block, and stores a nonempty list of
slots, each available and matching one of the requested time formats. -/
theorem c8_invariant (blocks : List Block) (facility cn : Str) (formats : List Str) :
    ∀ p ∈ find_matching_courts blocks facility cn formats, entryInv facility formats p := by
  unfold find_matching_courts
  exact fmc_go_inv facility cn formats blocks [] (by intro p hp; exact absurd hp (by simp))

/-- C8 witness on a concrete one-block input. -/
theorem c8_invariant_witness :
    entryInv ("badminton".toList) (["6:00 pm".toList])
      (("Badminton Court 1".toList),
        ⟨exB1, 180, [(exSlot1, "6:00 pm - 7:00 pm".toList)]⟩) :=
  c8_invariant [exB1] ("badminton".toList) [] (["6:00 pm".toList]) _ (by decide)

set_option maxHeartbeats 1000000 in
theorem c9CheckHour_0 : c9CheckHour 0 = true := by decide

set_option maxHeartbeats 1000000 in
theorem c9CheckHour_1 : c9CheckHour 1 = true := by decide

set_option maxHeartbeats 1000000 in
theorem c9CheckHour_2 : c9CheckHour 2 = true := by decide

set_option maxHeartbeats 1000000 in
theorem c9CheckHour_3 : c9CheckHour 3 = true := by decide

set_option maxHeartbeats 1000000 in
theorem c9CheckHour_4 : c9CheckHour 4 = true := by decide

set_option maxHeartbeats 1000000 in
theorem c9CheckHour_5 : c9CheckHour 5 = true := by decide

set_option maxHeartbeats 1000000 in
theorem c9CheckHour_6 : c9CheckHour 6 = true := by decide

set_option maxHeartbeats 1000000 in
theorem c9CheckHour_7 : c9CheckHour 7 = true := by decide

set_option maxHeartbeats 1000000 in
theorem c9CheckHour_8 : c9CheckHour 8 = true := by decide

set_option maxHeartbeats 1000000 in
theorem c9CheckHour_9 : c9CheckHour 9 = true := by decide

set_option maxHeartbeats 1000000 in
theorem c9CheckHour_10 : c9CheckHour 10 = true := by decide

set_option maxHeartbeats 1000000 in
theorem c9CheckHour_11 : c9CheckHour 11 = true := by decide

set_option maxHeartbeats 1000000 in
theorem c9CheckHour_12 : c9CheckHour 12 = true := by decide

set_option maxHeartbeats 1000000 in
theorem c9CheckHour_13 : c9CheckHour 13 = true := by decide

set_option maxHeartbeats 1000000 in
theorem c9CheckHour_14 : c9CheckHour 14 = true := by decide

set_option maxHeartbeats 1000000 in
theorem c9CheckHour_15 : c9CheckHour 15 = true := by decide

set_option maxHeartbeats 1000000 in
theorem c9CheckHour_16 : c9CheckHour 16 = true := by decide

set_option maxHeartbeats 1000000 in
theorem c9CheckHour_17 : c9CheckHour 17 = true := by decide

set_option maxHeartbeats 1000000 in
theorem c9CheckHour_18 : c9CheckHour 18 = true := by decide

set_option maxHeartbeats 1000000 in
theorem c9CheckHour_19 : c9CheckHour 19 = true := by decide

set_option maxHeartbeats 1000000 in
theorem c9CheckHour_20 : c9CheckHour 20 = true := by decide

set_option maxHeartbeats 1000000 in
theorem c9CheckHour_21 : c9CheckHour 21 = true := by decide

set_option maxHeartbeats 1000000 in
theorem c9CheckHour_22 : c9CheckHour 22 = true := by decide

set_option maxHeartbeats 1000000 in
theorem c9CheckHour_23 : c9CheckHour 23 = true := by decide

theorem c9CheckHour_true (h2 : Nat) (hh : h2 < 24) : c9CheckHour h2 = true := by
  interval_cases h2
  exacts [c9CheckHour_0, c9CheckHour_1, c9CheckHour_2, c9CheckHour_3, c9CheckHour_4, c9CheckHour_5, c9CheckHour_6, c9CheckHour_7, c9CheckHour_8, c9CheckHour_9, c9CheckHour_10, c9CheckHour_11, c9CheckHour_12, c9CheckHour_13, c9CheckHour_14, c9CheckHour_15, c9CheckHour_16, c9CheckHour_17, c9CheckHour_18, c9CheckHour_19, c9CheckHour_20, c9CheckHour_21, c9CheckHour_22, c9CheckHour_23]

/-- C9: for every valid desired-time string of the claimed form, hour with
optional colon and two-digit minutes, optional space and optional am or pm
indicator, with hour 1 to 12 when an indicator is present and 0 to 23
otherwise, the parser returns an hour within 0 to 23 and the given minute
within 0 to 59, and re-parsing the canonical 12-hour rendering of its own
result returns the same pair. -/
theorem c9_roundtrip (h mm : Nat) (wc sp : Bool) (ind : Option Bool)
    (hind : (ind.isSome = true → 1 ≤ h ∧ h ≤ 12) ∧ (ind = none → h ≤ 23))
    (hm : mm ≤ 59) (hwc : wc = false → mm = 0) :
    parse_time (renderTime h wc mm sp ind) = .ok (expectedHour h ind, mm) ∧
      expectedHour h ind ≤ 23 ∧ mm ≤ 59 ∧
      parse_time (canon12 (expectedHour h ind) mm) = .ok (expectedHour h ind, mm) := by
  obtain ⟨ha, hn⟩ := hind
  have hb : h < 24 := by
    rcases ind with _ | b
    · have := hn rfl; omega
    · have := ha rfl; omega
  have hpre : c9Pre h ind = true := by
    rcases ind with _ | b
    · have := hn rfl
      simp [c9Pre]
      omega
    · have := ha rfl
      simp [c9Pre]
      omega
  have h1 := c9CheckHour_true h hb
  unfold c9CheckHour at h1
  rw [List.all_eq_true] at h1
  have h2 := h1 mm (List.mem_range.mpr (by omega))
  try dsimp only at h2
  rw [List.all_eq_true] at h2
  have h3 := h2 wc (by cases wc <;> simp)
  try dsimp only at h3
  rw [List.all_eq_true] at h3
  have h4 := h3 sp (by cases sp <;> simp)
  try dsimp only at h4
  rw [List.all_eq_true] at h4
  have h5 := h4 ind (by rcases ind with _ | b
                        · simp
                        · cases b <;> simp)
  try dsimp only at h5
  have hg : (wc || decide (mm = 0)) = true := by
    cases wc with
    | true => simp
    | false => simp [hwc rfl]
  rw [hpre, hg] at h5
  simp only [Bool.and_true, Bool.not_true, Bool.false_or] at h5
  unfold c9Body at h5
  simp only [Bool.and_eq_true, decide_eq_true_eq] at h5
  exact ⟨h5.1.1, h5.1.2, hm, h5.2⟩

/-- C9 witness at the concrete input 6:30 pm. -/
theorem c9_roundtrip_witness :
    parse_time (renderTime 6 true 30 true (some true)) = .ok (expectedHour 6 (some true), 30) ∧
      expectedHour 6 (some true) ≤ 23 ∧ 30 ≤ 59 ∧
      parse_time (canon12 (expectedHour 6 (some true)) 30) = .ok (expectedHour 6 (some true), 30) :=
  c9_roundtrip 6 30 true true (some true) (by simp) (by omega) (by simp)
